import Mathlib

/-
Verification of the wallet ledger and marketplace settlement subsystem of
the kids-app-with-ocr repository (Express + Firestore route handlers).

The Firestore documents are modelled as Lean structures with optional
fields (a Firestore document may lack any given field; JavaScript reads
them back as undefined, and the handlers guard reads with the idiom
field-or-zero).  Each route handler's transaction body is translated into
a pure function from the relevant document states to an Except value:
a thrown JavaScript Error aborts the Firestore transaction with no write
applied, which is exactly the error branch of Except.  Amounts are Int
(the handlers do integer arithmetic on them; Math.floor on a quotient of
integers is Int.fdiv).
-/

namespace KidsApp

/-- JavaScript idiom x or-else 0 used by every balance read
(userData.coinBalance with a fallback of 0 when the field is absent). -/
def orZero : Option Int → Int
  | some x => x
  | none => 0

/-- A user document in the users collection.  initUser creates it with
email, coinBalance, createdAt, role and isVerified; the conversion
handlers add gqBalance and lastConversionAt.  Absent fields are none. -/
structure Wallet where
  email : Option String := none
  coinBalance : Option Int := none
  gqBalance : Option Int := none
  createdAt : Option Int := none
  role : Option String := none
  isVerified : Option Bool := none
  lastConversionAt : Option Int := none
deriving DecidableEq

/-- A listing document (books, bookRequests, or teachers collection).
Books use status available/accepted; requests use pending/fulfilled. -/
structure Listing where
  title : Option String := none
  status : Option String := none
  posterEmail : Option String := none
  posterPhone : Option String := none
  studentEmail : Option String := none
  email : Option String := none
  acceptedByEmail : Option String := none
  acceptedByPhone : Option String := none
  acceptedAt : Option Int := none
  paymentReference : Option String := none
  fulfilledByEmail : Option String := none
  fulfilledByPhone : Option String := none
  fulfilledAt : Option Int := none
deriving DecidableEq

/-- Errors thrown inside the two currency-conversion transactions
(src/routes/wallet.js).  Each constructor corresponds to one throw site:
invalidAmount is the 400 response Minimum 100 points required,
userNotFound is User not found, insufficientPoints is Insufficient
points, need100Points is Need at least 100 points, and insufficientGQ
is Insufficient GQ. -/
inductive ConvErr
  | invalidAmount
  | userNotFound
  | insufficientPoints
  | need100Points
  | insufficientGQ
deriving DecidableEq

/-- Errors thrown inside the settlement transactions (src/unnamed/part_006).
walletNotFound is the User wallet not found throw, listingNotFound the
Book not found / Book request not found / Teacher request not found
throw, insufficientFunds the Insufficient Gocoins throw, and
alreadySettled the already connected / already fulfilled throw. -/
inductive SErr
  | walletNotFound
  | listingNotFound
  | insufficientFunds
  | alreadySettled
deriving DecidableEq

/-- Errors of the POST /wallet/topup handler: verificationFailed is the
Payment verification failed response, invalidAmount the Invalid payment
amount response, and updateFailed models the Firestore update call
rejecting because the user document does not exist. -/
inductive TopErr
  | verificationFailed
  | invalidAmount
  | updateFailed
deriving DecidableEq

/-- HTTP outcome of a settlement route handler: success carries the
newBalance field of the JSON response; failure is the 400 error
response produced by the catch block. -/
inductive Resp
  | success (newBalance : Int)
  | failure
deriving DecidableEq

/-- src/utils/initUser.js: if the user document does not exist, create it
with a 30 coin grant, role user and unverified status; otherwise do
nothing.  The email argument is the token email (null becomes none) and
now stands for Timestamp.now(). -/
def initUser (email : Option String) (now : Int) (user : Option Wallet) :
    Option Wallet :=
  match user with
  | some w => some w
  | none =>
      some { email := email, coinBalance := some 30, createdAt := some now,
             role := some "user", isVerified := some false }

/-- src/routes/wallet.js, POST /convertPointsToGQ.  The pre-transaction
check rejects a missing/zero amount or an amount below 100; inside the
transaction the balance must cover the full requested amount, then
gqGained = floor(amount / 100) GQ are credited and gqGained * 100 coins
debited.  Returns the updated document and the newPoints/newGQ pair. -/
def convertPointsToGQ (amountToConvert : Int) (now : Int)
    (user : Option Wallet) : Except ConvErr (Wallet × Int × Int) :=
  if amountToConvert = 0 ∨ amountToConvert < 100 then
    .error .invalidAmount
  else
    match user with
    | none => .error .userNotFound
    | some d =>
        let currentPoints := orZero d.coinBalance
        let currentGQ := orZero d.gqBalance
        if currentPoints < amountToConvert then .error .insufficientPoints
        else
          let gqGained := amountToConvert.fdiv 100
          let pointsDeducted := gqGained * 100
          let newPoints := currentPoints - pointsDeducted
          let newGQ := currentGQ + gqGained
          .ok ({ d with coinBalance := some newPoints,
                        gqBalance := some newGQ,
                        lastConversionAt := some now },
               newPoints, newGQ)

/-- src/routes/wallet.js, POST /convertCurrency.  The points-to-gq branch
only checks that the balance is at least 100, then debits
floor(amount / 100) * 100 coins and credits that divided by 100 GQ; the
gq-to-points branch checks the GQ balance against the amount and credits
amount * 100 coins; any other from/to pair falls through to the final
return of success true with no update. -/
def convertCurrency (frm : String) (transferTo : String) (amount : Int)
    (user : Option Wallet) : Except ConvErr Wallet :=
  match user with
  | none => .error .userNotFound
  | some data =>
      let currentPoints := orZero data.coinBalance
      let currentGQ := orZero data.gqBalance
      if frm = "points" ∧ transferTo = "gq" then
        if currentPoints < 100 then .error .need100Points
        else
          let pointsToUse := amount.fdiv 100 * 100
          let gqEarned := pointsToUse / 100
          .ok { data with coinBalance := some (currentPoints - pointsToUse),
                          gqBalance := some (currentGQ + gqEarned) }
      else if frm = "gq" ∧ transferTo = "points" then
        if currentGQ < amount then .error .insufficientGQ
        else
          .ok { data with gqBalance := some (currentGQ - amount),
                          coinBalance := some (currentPoints + amount * 100) }
      else
        .ok data

/-- src/unnamed/part_006, POST /wallet/topup.  pOk and pDataStatus are the
status flag and data.status of the Paystack verification response and
pAmount its amount in kobo.  The grant table maps 100000 to 100 coins,
200000 to 250 and 400000 to 500; any other verified amount is rejected.
On success the balance is incremented and the new balance returned. -/
def walletTopup (pOk : Bool) (pDataStatus : String) (pAmount : Int)
    (user : Option Wallet) : Except TopErr (Wallet × Int) :=
  if pOk = false ∨ pDataStatus ≠ "success" then
    .error .verificationFailed
  else
    let coins : Option Int :=
      if pAmount = 100000 then some 100
      else if pAmount = 200000 then some 250
      else if pAmount = 400000 then some 500
      else none
    match coins with
    | none => .error .invalidAmount
    | some c =>
        match user with
        | none => .error .updateFailed
        | some w =>
            let nb := orZero w.coinBalance + c
            .ok ({ w with coinBalance := some nb }, nb)

/-- src/unnamed/part_006 lines 789-822: transaction body of the first
registered POST /acceptBookWithWallet handler (the registration Express
dispatches to).  Checks, in source order: wallet exists, book exists,
balance at least the COST of 5, book status not already accepted; then
debits 5 coins and marks the book accepted. -/
def acceptBookTxn (userEmail accepterPhone : String) (now : Int)
    (user : Option Wallet) (book : Option Listing) :
    Except SErr (Wallet × Listing × Int) :=
  match user with
  | none => .error .walletNotFound
  | some userData =>
      match book with
      | none => .error .listingNotFound
      | some bookData =>
          if orZero userData.coinBalance < 5 then .error .insufficientFunds
          else if bookData.status = some "accepted" then .error .alreadySettled
          else
            let newBalance := orZero userData.coinBalance - 5
            .ok ({ userData with coinBalance := some newBalance },
                 { bookData with status := some "accepted",
                                 acceptedByEmail := some userEmail,
                                 acceptedByPhone := some accepterPhone,
                                 acceptedAt := some now },
                 newBalance)

/-- src/unnamed/part_006 lines 778-850: the whole
POST /acceptBookWithWallet handler.  emailOk says whether the two awaited
sendNotification calls succeed; when the transaction committed but a
notification rejects, the handler's catch block produces the 400 failure
response, yet the committed Firestore state stands. -/
def acceptBookWithWallet (userEmail accepterPhone : String) (now : Int)
    (emailOk : Bool) (user : Option Wallet) (book : Option Listing) :
    (Option Wallet × Option Listing) × Resp :=
  match acceptBookTxn userEmail accepterPhone now user book with
  | .error _ => ((user, book), .failure)
  | .ok (u, b, nb) =>
      if emailOk then ((some u, some b), .success nb)
      else ((some u, some b), .failure)

/-- src/unnamed/part_006 lines 673-705: transaction body of
POST /fulfillRequestWithWallet.  Checks, in source order: request exists,
wallet exists, balance at least 5, request status not already fulfilled;
then debits 5 coins and marks the request fulfilled. -/
def fulfillRequestTxn (supplierEmail accepterPhone : String) (now : Int)
    (user : Option Wallet) (request : Option Listing) :
    Except SErr (Wallet × Listing × Int) :=
  match request with
  | none => .error .listingNotFound
  | some requestData =>
      match user with
      | none => .error .walletNotFound
      | some userData =>
          if orZero userData.coinBalance < 5 then .error .insufficientFunds
          else if requestData.status = some "fulfilled" then
            .error .alreadySettled
          else
            let newBalance := orZero userData.coinBalance - 5
            .ok ({ userData with coinBalance := some newBalance },
                 { requestData with status := some "fulfilled",
                                    fulfilledByEmail := some supplierEmail,
                                    fulfilledByPhone := some accepterPhone,
                                    fulfilledAt := some now },
                 newBalance)

/-- src/unnamed/part_006 lines 662-737: the whole
POST /fulfillRequestWithWallet handler, with emailOk as for the book
handler. -/
def fulfillRequestWithWallet (supplierEmail accepterPhone : String)
    (now : Int) (emailOk : Bool) (user : Option Wallet)
    (request : Option Listing) : (Option Wallet × Option Listing) × Resp :=
  match fulfillRequestTxn supplierEmail accepterPhone now user request with
  | .error _ => ((user, request), .failure)
  | .ok (u, r, nb) =>
      if emailOk then ((some u, some r), .success nb)
      else ((some u, some r), .failure)

/-- src/unnamed/part_006 lines 365-395: transaction body of
POST /acceptRequestWithWallet (teacher requests).  Checks, in source
order: request exists, wallet exists, balance at least the COST of 5,
status not already fulfilled; then debits 5 coins and marks the request
fulfilled. -/
def acceptRequestTxn (teacherEmail accepterPhone : String) (now : Int)
    (user : Option Wallet) (request : Option Listing) :
    Except SErr (Wallet × Listing × Int) :=
  match request with
  | none => .error .listingNotFound
  | some requestData =>
      match user with
      | none => .error .walletNotFound
      | some userData =>
          if orZero userData.coinBalance < 5 then .error .insufficientFunds
          else if requestData.status = some "fulfilled" then
            .error .alreadySettled
          else
            let newBalance := orZero userData.coinBalance - 5
            .ok ({ userData with coinBalance := some newBalance },
                 { requestData with status := some "fulfilled",
                                    fulfilledByEmail := some teacherEmail,
                                    fulfilledByPhone := some accepterPhone,
                                    fulfilledAt := some now },
                 newBalance)

/-- src/unnamed/part_006 lines 354-423: the whole
POST /acceptRequestWithWallet handler.  After commit it reads the
recipient from the pre-transaction request data (studentEmail or email
field); when neither is present the notification step is skipped with a
warning and the success response is still sent. -/
def acceptRequestWithWallet (teacherEmail accepterPhone : String)
    (now : Int) (emailOk : Bool) (user : Option Wallet)
    (request : Option Listing) : (Option Wallet × Option Listing) × Resp :=
  match acceptRequestTxn teacherEmail accepterPhone now user request with
  | .error _ => ((user, request), .failure)
  | .ok (u, r, nb) =>
      let recipient :=
        match request with
        | some rd => (rd.studentEmail).orElse (fun _ => rd.email)
        | none => none
      match recipient with
      | some _ =>
          if emailOk then ((some u, some r), .success nb)
          else ((some u, some r), .failure)
      | none => ((some u, some r), .success nb)

/-- src/unnamed/part_003 lines 478-523 (the first, live registration of
POST /acceptBook; an identical copy is src/unnamed/part_006 lines
612-657): no wallet is involved and the status field is never checked,
so the handler unconditionally sets status accepted and overwrites the
acceptor fields.  The Bool result is whether the HTTP response is a
success (false covers the 404 for a missing book and the 500 when a
notification rejects). -/
def acceptBook (buyerEmail accepterPhone : String)
    (reference : Option String) (now : Int) (emailOk : Bool)
    (book : Option Listing) : Option Listing × Bool :=
  match book with
  | none => (none, false)
  | some bookData =>
      let updated :=
        { bookData with status := some "accepted",
                        acceptedByEmail := some buyerEmail,
                        acceptedByPhone := some accepterPhone,
                        paymentReference := some (reference.getD "Internal_OK"),
                        acceptedAt := some now }
      (some updated, emailOk)

/-! Helper lemmas shared by several conversion theorems. -/

/-- Reduction of the points-to-gq branch of convertCurrency when the
balance passes the only check the code makes (at least 100 coins). -/
theorem convertCurrency_points_gq_ok (w : Wallet) (p A : Int)
    (hp : w.coinBalance = some p) (h100 : ¬ p < 100) :
    convertCurrency "points" "gq" A (some w) =
      .ok { w with coinBalance := some (p - A.fdiv 100 * 100),
                   gqBalance := some (orZero w.gqBalance + A.fdiv 100) } := by
  simp only [convertCurrency]
  rw [if_pos (⟨trivial, trivial⟩ : True ∧ True), hp]
  simp only [orZero]
  rw [if_neg h100, Int.mul_ediv_cancel _ (by norm_num : (100 : Int) ≠ 0)]

/-- Reduction of the gq-to-points branch of convertCurrency when the GQ
balance covers the requested amount. -/
theorem convertCurrency_gq_points_ok (w : Wallet) (g A : Int)
    (hg : w.gqBalance = some g) (hge : ¬ g < A) :
    convertCurrency "gq" "points" A (some w) =
      .ok { w with gqBalance := some (g - A),
                   coinBalance := some (orZero w.coinBalance + A * 100) } := by
  simp only [convertCurrency]
  rw [if_neg (by decide : ¬(("gq" : String) = "points" ∧ ("points" : String) = "gq"))]
  rw [if_pos (⟨trivial, trivial⟩ : True ∧ True), hg]
  simp only [orZero]
  rw [if_neg hge]

/-- Claim C1 (code bug evidence): a wallet holding 130 coins (the 30 coin
grant plus a 100 coin top-up) converts amount 1000 from points to gq; the
handler only checks that the balance is at least 100, so it commits a
coinBalance of -870 and answers success.  The claim says any operation
that would drive coinBalance negative is rejected with the balance left
unchanged. -/
theorem convertCurrency_commits_negative_balance :
    convertCurrency "points" "gq" 1000
        (some { coinBalance := some 130, gqBalance := some 0 }) =
      .ok { coinBalance := some (-870), gqBalance := some 10 } ∧
    (-870 : Int) < 0 := by
  constructor
  · rfl
  · decide

/-- Claim C2 (counterexample): the live POST /acceptBook handler
(src/unnamed/part_003 lines 478-523, the first registration Express
dispatches to) performs no status check: on a book already accepted by
alice it answers success and overwrites the settlement fields with bob,
so a second acceptance attempt on a terminal listing is neither rejected
with AlreadySettled nor side-effect free. -/
theorem acceptBook_overwrites_settled_listing :
    acceptBook "bob@mail.com" "0802" none 9 true
        (some { title := some "Algebra", status := some "accepted",
                acceptedByEmail := some "alice@mail.com",
                acceptedByPhone := some "0801", acceptedAt := some 5 }) =
      (some { title := some "Algebra", status := some "accepted",
              acceptedByEmail := some "bob@mail.com",
              acceptedByPhone := some "0802",
              acceptedAt := some 9,
              paymentReference := some "Internal_OK" }, true) ∧
    (some { title := some "Algebra", status := some "accepted",
            acceptedByEmail := some "bob@mail.com",
            acceptedByPhone := some "0802",
            acceptedAt := some 9,
            paymentReference := some "Internal_OK" } : Option Listing) ≠
      some { title := some "Algebra", status := some "accepted",
             acceptedByEmail := some "alice@mail.com",
             acceptedByPhone := some "0801", acceptedAt := some 5 } := by
  constructor
  · decide
  · decide

/-- Claim C2 (amended): the three wallet-based settlement handlers do
reject a terminal listing: the whole handler leaves both documents
unchanged and answers with the failure response, and whenever the caller
passes the balance check that the code runs first, the error is the
AlreadySettled throw.  Only the plain acceptBook and fulfillRequest
routes (no wallet) lack the status check. -/
theorem wallet_settlement_rejects_settled_listing (u : Wallet)
    (b r : Listing) (em ph : String) (now : Int) (emailOk : Bool)
    (hb : b.status = some "accepted") (hr : r.status = some "fulfilled") :
    acceptBookWithWallet em ph now emailOk (some u) (some b) =
      ((some u, some b), .failure) ∧
    fulfillRequestWithWallet em ph now emailOk (some u) (some r) =
      ((some u, some r), .failure) ∧
    acceptRequestWithWallet em ph now emailOk (some u) (some r) =
      ((some u, some r), .failure) ∧
    (5 ≤ orZero u.coinBalance →
      acceptBookTxn em ph now (some u) (some b) = .error .alreadySettled ∧
      fulfillRequestTxn em ph now (some u) (some r) = .error .alreadySettled ∧
      acceptRequestTxn em ph now (some u) (some r) = .error .alreadySettled) := by
  by_cases h5 : orZero u.coinBalance < 5
  · have t1 : acceptBookTxn em ph now (some u) (some b) =
        .error .insufficientFunds := by
      simp only [acceptBookTxn]; rw [if_pos h5]
    have t2 : fulfillRequestTxn em ph now (some u) (some r) =
        .error .insufficientFunds := by
      simp only [fulfillRequestTxn]; rw [if_pos h5]
    have t3 : acceptRequestTxn em ph now (some u) (some r) =
        .error .insufficientFunds := by
      simp only [acceptRequestTxn]; rw [if_pos h5]
    refine ⟨?_, ?_, ?_, fun h => absurd h (by omega)⟩
    · simp only [acceptBookWithWallet, t1]
    · simp only [fulfillRequestWithWallet, t2]
    · simp only [acceptRequestWithWallet, t3]
  · have t1 : acceptBookTxn em ph now (some u) (some b) =
        .error .alreadySettled := by
      simp only [acceptBookTxn]; rw [if_neg h5, if_pos hb]
    have t2 : fulfillRequestTxn em ph now (some u) (some r) =
        .error .alreadySettled := by
      simp only [fulfillRequestTxn]; rw [if_neg h5, if_pos hr]
    have t3 : acceptRequestTxn em ph now (some u) (some r) =
        .error .alreadySettled := by
      simp only [acceptRequestTxn]; rw [if_neg h5, if_pos hr]
    refine ⟨?_, ?_, ?_, fun _ => ⟨t1, t2, t3⟩⟩
    · simp only [acceptBookWithWallet, t1]
    · simp only [fulfillRequestWithWallet, t2]
    · simp only [acceptRequestWithWallet, t3]

/-- Claim C2 (witness): concrete run of the amended theorem on a wallet
holding 30 coins and listings already settled. -/
theorem wallet_settlement_rejects_settled_listing_witness :
    acceptBookWithWallet "t@mail.com" "080" 1 true
        (some { coinBalance := some 30 })
        (some { status := some "accepted" }) =
      ((some { coinBalance := some 30 },
        some { status := some "accepted" }), .failure) ∧
    fulfillRequestWithWallet "t@mail.com" "080" 1 true
        (some { coinBalance := some 30 })
        (some { status := some "fulfilled" }) =
      ((some { coinBalance := some 30 },
        some { status := some "fulfilled" }), .failure) ∧
    acceptRequestWithWallet "t@mail.com" "080" 1 true
        (some { coinBalance := some 30 })
        (some { status := some "fulfilled" }) =
      ((some { coinBalance := some 30 },
        some { status := some "fulfilled" }), .failure) ∧
    (5 ≤ orZero (Wallet.coinBalance { coinBalance := some 30 }) →
      acceptBookTxn "t@mail.com" "080" 1
          (some { coinBalance := some 30 })
          (some { status := some "accepted" }) = .error .alreadySettled ∧
      fulfillRequestTxn "t@mail.com" "080" 1
          (some { coinBalance := some 30 })
          (some { status := some "fulfilled" }) = .error .alreadySettled ∧
      acceptRequestTxn "t@mail.com" "080" 1
          (some { coinBalance := some 30 })
          (some { status := some "fulfilled" }) = .error .alreadySettled) :=
  wallet_settlement_rejects_settled_listing { coinBalance := some 30 }
    { status := some "accepted" } { status := some "fulfilled" }
    "t@mail.com" "080" 1 true rfl rfl

/-- Claim C3: when the wallet exists, the listing exists with
non-terminal status and the balance is below the 5 coin cost, each of
the three wallet settlement transactions throws InsufficientFunds, the
transaction aborts, and the whole handler leaves both documents exactly
as they were while answering the failure response. -/
theorem insufficient_funds_aborts_settlement (u : Wallet)
    (b r tr : Listing) (em ph : String) (now : Int) (emailOk : Bool)
    (hbal : orZero u.coinBalance < 5)
    (_hb : b.status ≠ some "accepted")
    (_hr : r.status ≠ some "fulfilled")
    (_htr : tr.status ≠ some "fulfilled") :
    acceptBookTxn em ph now (some u) (some b) = .error .insufficientFunds ∧
    acceptBookWithWallet em ph now emailOk (some u) (some b) =
      ((some u, some b), .failure) ∧
    fulfillRequestTxn em ph now (some u) (some r) =
      .error .insufficientFunds ∧
    fulfillRequestWithWallet em ph now emailOk (some u) (some r) =
      ((some u, some r), .failure) ∧
    acceptRequestTxn em ph now (some u) (some tr) =
      .error .insufficientFunds ∧
    acceptRequestWithWallet em ph now emailOk (some u) (some tr) =
      ((some u, some tr), .failure) := by
  have t1 : acceptBookTxn em ph now (some u) (some b) =
      .error .insufficientFunds := by
    simp only [acceptBookTxn]; rw [if_pos hbal]
  have t2 : fulfillRequestTxn em ph now (some u) (some r) =
      .error .insufficientFunds := by
    simp only [fulfillRequestTxn]; rw [if_pos hbal]
  have t3 : acceptRequestTxn em ph now (some u) (some tr) =
      .error .insufficientFunds := by
    simp only [acceptRequestTxn]; rw [if_pos hbal]
  refine ⟨t1, ?_, t2, ?_, t3, ?_⟩
  · simp only [acceptBookWithWallet, t1]
  · simp only [fulfillRequestWithWallet, t2]
  · simp only [acceptRequestWithWallet, t3]

/-- Claim C3 (witness): the scenario of the spec, with a balance of 3
coins against the cost of 5 and pending listings. -/
theorem insufficient_funds_aborts_settlement_witness :
    acceptBookTxn "s@mail.com" "081" 2
        (some { coinBalance := some 3 })
        (some { status := some "available" }) =
      .error .insufficientFunds ∧
    acceptBookWithWallet "s@mail.com" "081" 2 true
        (some { coinBalance := some 3 })
        (some { status := some "available" }) =
      ((some { coinBalance := some 3 },
        some { status := some "available" }), .failure) ∧
    fulfillRequestTxn "s@mail.com" "081" 2
        (some { coinBalance := some 3 })
        (some { status := some "pending" }) =
      .error .insufficientFunds ∧
    fulfillRequestWithWallet "s@mail.com" "081" 2 true
        (some { coinBalance := some 3 })
        (some { status := some "pending" }) =
      ((some { coinBalance := some 3 },
        some { status := some "pending" }), .failure) ∧
    acceptRequestTxn "s@mail.com" "081" 2
        (some { coinBalance := some 3 })
        (some { status := some "pending" }) =
      .error .insufficientFunds ∧
    acceptRequestWithWallet "s@mail.com" "081" 2 true
        (some { coinBalance := some 3 })
        (some { status := some "pending" }) =
      ((some { coinBalance := some 3 },
        some { status := some "pending" }), .failure) :=
  insufficient_funds_aborts_settlement { coinBalance := some 3 }
    { status := some "available" } { status := some "pending" }
    { status := some "pending" } "s@mail.com" "081" 2 true
    (by decide) (by decide) (by decide) (by decide)

/-- Claim C4 (counterexample): a caller with 3 coins accepting a book
that is already accepted receives the InsufficientFunds throw, not the
AlreadySettled one, because the code runs the balance check before the
status check, the reverse of the order the spec gives. -/
theorem balance_check_precedes_status_check :
    acceptBookTxn "buyer@mail.com" "0803" 0
        (some { coinBalance := some 3 })
        (some { status := some "accepted" }) =
      .error .insufficientFunds ∧
    (Except.error SErr.insufficientFunds :
        Except SErr (Wallet × Listing × Int)) ≠
      Except.error SErr.alreadySettled := by
  constructor
  · rfl
  · intro h
    exact absurd (Except.error.inj h) (by decide)

/-- Claim C4 (amended): in all three wallet settlement transactions the
balance check comes first: on a terminal listing a caller below the 5
coin cost receives InsufficientFunds, and a caller at or above it
receives AlreadySettled. -/
theorem settlement_check_order (u : Wallet) (b r : Listing)
    (em ph : String) (now : Int)
    (hb : b.status = some "accepted") (hr : r.status = some "fulfilled") :
    (orZero u.coinBalance < 5 →
      acceptBookTxn em ph now (some u) (some b) =
        .error .insufficientFunds ∧
      fulfillRequestTxn em ph now (some u) (some r) =
        .error .insufficientFunds ∧
      acceptRequestTxn em ph now (some u) (some r) =
        .error .insufficientFunds) ∧
    (5 ≤ orZero u.coinBalance →
      acceptBookTxn em ph now (some u) (some b) = .error .alreadySettled ∧
      fulfillRequestTxn em ph now (some u) (some r) =
        .error .alreadySettled ∧
      acceptRequestTxn em ph now (some u) (some r) =
        .error .alreadySettled) := by
  constructor
  · intro h5
    refine ⟨?_, ?_, ?_⟩
    · simp only [acceptBookTxn]; rw [if_pos h5]
    · simp only [fulfillRequestTxn]; rw [if_pos h5]
    · simp only [acceptRequestTxn]; rw [if_pos h5]
  · intro h5
    have h5n : ¬ orZero u.coinBalance < 5 := by omega
    refine ⟨?_, ?_, ?_⟩
    · simp only [acceptBookTxn]; rw [if_neg h5n, if_pos hb]
    · simp only [fulfillRequestTxn]; rw [if_neg h5n, if_pos hr]
    · simp only [acceptRequestTxn]; rw [if_neg h5n, if_pos hr]

/-- Claim C4 (witness): the amended theorem at a wallet of 3 coins and
settled listings; the first implication fires, the second is vacuous. -/
theorem settlement_check_order_witness :
    (orZero (Wallet.coinBalance { coinBalance := some 3 }) < 5 →
      acceptBookTxn "w@mail.com" "082" 3
          (some { coinBalance := some 3 })
          (some { status := some "accepted" }) =
        .error .insufficientFunds ∧
      fulfillRequestTxn "w@mail.com" "082" 3
          (some { coinBalance := some 3 })
          (some { status := some "fulfilled" }) =
        .error .insufficientFunds ∧
      acceptRequestTxn "w@mail.com" "082" 3
          (some { coinBalance := some 3 })
          (some { status := some "fulfilled" }) =
        .error .insufficientFunds) ∧
    (5 ≤ orZero (Wallet.coinBalance { coinBalance := some 3 }) →
      acceptBookTxn "w@mail.com" "082" 3
          (some { coinBalance := some 3 })
          (some { status := some "accepted" }) = .error .alreadySettled ∧
      fulfillRequestTxn "w@mail.com" "082" 3
          (some { coinBalance := some 3 })
          (some { status := some "fulfilled" }) = .error .alreadySettled ∧
      acceptRequestTxn "w@mail.com" "082" 3
          (some { coinBalance := some 3 })
          (some { status := some "fulfilled" }) = .error .alreadySettled) :=
  settlement_check_order { coinBalance := some 3 }
    { status := some "accepted" } { status := some "fulfilled" }
    "w@mail.com" "082" 3 rfl rfl

/-- Claim C5 (counterexample): a successful settlement (30 coins, book
available) followed by a failing notification dispatch: the committed
debit and status flip stand, but the handler catch block answers the
400 failure response instead of the success response with the new
balance, because the awaited sendNotification calls are inside the same
try block and their rejection is not swallowed. -/
theorem email_failure_turns_response_into_error :
    acceptBookWithWallet "bob@mail.com" "0804" 7 false
        (some { coinBalance := some 30 })
        (some { status := some "available" }) =
      ((some { coinBalance := some 25 },
        some { status := some "accepted",
               acceptedByEmail := some "bob@mail.com",
               acceptedByPhone := some "0804", acceptedAt := some 7 }),
       .failure) := rfl

/-- Claim C5 (amended): whenever the settlement transaction commits, the
committed wallet and listing states are identical whether or not the
notification dispatch succeeds (no rollback), but the HTTP response is
the failure one when dispatch fails and the success one with the new
balance only when dispatch succeeds. -/
theorem settlement_commit_survives_email_failure (u w1 : Wallet)
    (b b1 : Listing) (em ph : String) (now nb : Int)
    (htxn : acceptBookTxn em ph now (some u) (some b) = .ok (w1, b1, nb)) :
    acceptBookWithWallet em ph now false (some u) (some b) =
      ((some w1, some b1), .failure) ∧
    acceptBookWithWallet em ph now true (some u) (some b) =
      ((some w1, some b1), .success nb) := by
  constructor
  · simp only [acceptBookWithWallet, htxn]; rfl
  · simp only [acceptBookWithWallet, htxn]; rfl

/-- Claim C5 (witness): the amended theorem on the concrete commit of
the counterexample run. -/
theorem settlement_commit_survives_email_failure_witness :
    acceptBookWithWallet "bob@mail.com" "0804" 7 false
        (some { coinBalance := some 30 })
        (some { status := some "available" }) =
      ((some { coinBalance := some 25 },
        some { status := some "accepted",
               acceptedByEmail := some "bob@mail.com",
               acceptedByPhone := some "0804", acceptedAt := some 7 }),
       .failure) ∧
    acceptBookWithWallet "bob@mail.com" "0804" 7 true
        (some { coinBalance := some 30 })
        (some { status := some "available" }) =
      ((some { coinBalance := some 25 },
        some { status := some "accepted",
               acceptedByEmail := some "bob@mail.com",
               acceptedByPhone := some "0804", acceptedAt := some 7 }),
       .success 25) :=
  settlement_commit_survives_email_failure
    { coinBalance := some 30 } { coinBalance := some 25 }
    { status := some "available" }
    { status := some "accepted",
      acceptedByEmail := some "bob@mail.com",
      acceptedByPhone := some "0804", acceptedAt := some 7 }
    "bob@mail.com" "0804" 7 25 rfl

/-- Claim C6: lazy wallet creation is idempotent.  The first call on a
missing document creates exactly the 30 coin grant with role user and
unverified status; a second call on any existing document, whatever its
balance has become in between, returns it untouched. -/
theorem initUser_idempotent (e1 e2 : Option String) (t1 t2 : Int)
    (w : Wallet) :
    initUser e1 t1 none =
      some { email := e1, coinBalance := some 30, createdAt := some t1,
             role := some "user", isVerified := some false } ∧
    initUser e2 t2 (some w) = some w :=
  ⟨rfl, rfl⟩

/-- Claim C7: a points-to-gq conversion of amount A by a caller whose
balance passes the checks debits exactly fdiv A 100 * 100 coins and
credits fdiv A 100 GQ; the excess fmod A 100 of the requested amount is
not consumed (the new balance is the old one minus A plus fmod A 100 and
stays non-negative when the balance covers the consumed chunk), and
converting the gained GQ back restores exactly the original coin
balance, so a 300 coin round trip yields at most 300 coins. -/
theorem convert_points_to_gq_exact_chunks (w : Wallet) (p A : Int)
    (hp : w.coinBalance = some p) (hA : 0 ≤ A) (h100 : 100 ≤ p)
    (hsuff : A.fdiv 100 * 100 ≤ p) (hgq : 0 ≤ orZero w.gqBalance) :
    ∃ w1, convertCurrency "points" "gq" A (some w) = Except.ok w1 ∧
      w1.coinBalance = some (p - A.fdiv 100 * 100) ∧
      w1.gqBalance = some (orZero w.gqBalance + A.fdiv 100) ∧
      p - A.fdiv 100 * 100 = p - A + A.fmod 100 ∧
      0 ≤ p - A.fdiv 100 * 100 ∧
      ∃ w2, convertCurrency "gq" "points" (A.fdiv 100) (some w1) =
          Except.ok w2 ∧
        w2.coinBalance = some p := by
  have hstep1 := convertCurrency_points_gq_ok w p A hp (by omega)
  have hf0 : 0 ≤ A.fdiv 100 := Int.fdiv_nonneg hA (by norm_num)
  have hmod := Int.fmod_add_fdiv A 100
  refine ⟨_, hstep1, rfl, rfl, by linarith, by linarith, ?_⟩
  have hstep2 := convertCurrency_gq_points_ok
    { w with coinBalance := some (p - A.fdiv 100 * 100),
             gqBalance := some (orZero w.gqBalance + A.fdiv 100) }
    (orZero w.gqBalance + A.fdiv 100) (A.fdiv 100) rfl
    (not_lt.mpr (by linarith))
  refine ⟨_, hstep2, ?_⟩
  show some (p - A.fdiv 100 * 100 + A.fdiv 100 * 100) = some p
  congr 1
  ring

/-- Claim C7 (witness): converting 250 coins out of a 300 coin balance
consumes only 200 coins and yields 2 GQ, and converting those 2 GQ back
restores 300 coins. -/
theorem convert_points_to_gq_exact_chunks_witness :
    ∃ w1, convertCurrency "points" "gq" 250
        (some { coinBalance := some 300, gqBalance := some 0 }) =
      Except.ok w1 ∧
      w1.coinBalance = some (300 - (250 : Int).fdiv 100 * 100) ∧
      w1.gqBalance =
        some (orZero (Wallet.gqBalance
          { coinBalance := some 300, gqBalance := some 0 }) +
          (250 : Int).fdiv 100) ∧
      (300 : Int) - (250 : Int).fdiv 100 * 100 =
        300 - 250 + (250 : Int).fmod 100 ∧
      (0 : Int) ≤ 300 - (250 : Int).fdiv 100 * 100 ∧
      ∃ w2, convertCurrency "gq" "points" ((250 : Int).fdiv 100)
          (some w1) = Except.ok w2 ∧
        w2.coinBalance = some 300 :=
  convert_points_to_gq_exact_chunks
    { coinBalance := some 300, gqBalance := some 0 } 300 250 rfl
    (by decide) (by decide) (by decide) (by decide)

/-- Claim C8 (counterexample): POST /convertCurrency with from points,
to gq and amount 50 on a wallet holding 200 coins does not fail: the
branch only checks the balance against 100, floor division turns the
sub-minimum amount into a zero chunk, and the handler commits unchanged
balances and answers success.  The claim says such a request fails with
InvalidAmount. -/
theorem convertCurrency_small_amount_is_noop_success :
    convertCurrency "points" "gq" 50
        (some { coinBalance := some 200, gqBalance := some 0 }) =
      .ok { coinBalance := some 200, gqBalance := some 0 } := rfl

/-- Claim C8 (amended): only the legacy POST /convertPointsToGQ route
enforces the 100 coin minimum, rejecting a smaller amount with the
InvalidAmount response before the transaction runs; POST
/convertCurrency has no minimum-amount check and, for amount below 100
with at least 100 coins of balance, succeeds while leaving both
balances unchanged. -/
theorem conversion_minimum_amount_behavior (w : Wallet) (p A now : Int)
    (hp : w.coinBalance = some p) (h0 : 0 ≤ A) (hA : A < 100)
    (h100 : 100 ≤ p) :
    convertPointsToGQ A now (some w) = .error .invalidAmount ∧
    ∃ w1, convertCurrency "points" "gq" A (some w) = Except.ok w1 ∧
      w1.coinBalance = some p ∧
      w1.gqBalance = some (orZero w.gqBalance) := by
  have hfd : A.fdiv 100 = 0 := by
    rw [Int.fdiv_eq_ediv _ (by norm_num : (0 : Int) ≤ 100)]
    exact Int.ediv_eq_zero_of_lt h0 hA
  constructor
  · simp only [convertPointsToGQ]
    rw [if_pos (Or.inr hA)]
  · have hstep := convertCurrency_points_gq_ok w p A hp (by omega)
    rw [hfd] at hstep
    refine ⟨_, hstep, ?_, ?_⟩
    · show some (p - 0 * 100) = some p
      norm_num
    · show some (orZero w.gqBalance + 0) = some (orZero w.gqBalance)
      norm_num

/-- Claim C8 (witness): amount 50 against a 150 coin balance is rejected
by convertPointsToGQ yet silently accepted as a no-op by
convertCurrency. -/
theorem conversion_minimum_amount_behavior_witness :
    convertPointsToGQ 50 3
        (some { coinBalance := some 150, gqBalance := some 2 }) =
      .error .invalidAmount ∧
    ∃ w1, convertCurrency "points" "gq" 50
        (some { coinBalance := some 150, gqBalance := some 2 }) =
      Except.ok w1 ∧
      w1.coinBalance = some 150 ∧
      w1.gqBalance =
        some (orZero (Wallet.gqBalance
          { coinBalance := some 150, gqBalance := some 2 })) :=
  conversion_minimum_amount_behavior
    { coinBalance := some 150, gqBalance := some 2 } 150 50 3 rfl
    (by decide) (by decide) (by decide)

/-- Claim C9 (counterexample): the top-up grant table of POST
/wallet/topup keys on 100000, 200000 and 400000 kobo; a payment
verified for exactly 1000 minor currency units is not in the table and
is rejected with the Invalid payment amount response, not mapped to a
grant. -/
theorem topup_1000_minor_units_rejected :
    walletTopup true "success" 1000 (some { coinBalance := some 30 }) =
      .error .invalidAmount := rfl

/-- Claim C9 (amended): for a verified payment the coin grant is
determined solely by the fixed table sending 100000 kobo to 100 coins,
200000 to 250 and 400000 to 500; every other verified amount is
rejected with InvalidAmount leaving the wallet untouched, and an
unverified payment is rejected before the table is consulted. -/
theorem topup_fixed_grant_table (w : Wallet) (amt : Int) (ds : String)
    (h1 : amt ≠ 100000) (h2 : amt ≠ 200000) (h3 : amt ≠ 400000) :
    walletTopup true "success" 100000 (some w) =
      .ok ({ w with coinBalance := some (orZero w.coinBalance + 100) },
           orZero w.coinBalance + 100) ∧
    walletTopup true "success" 200000 (some w) =
      .ok ({ w with coinBalance := some (orZero w.coinBalance + 250) },
           orZero w.coinBalance + 250) ∧
    walletTopup true "success" 400000 (some w) =
      .ok ({ w with coinBalance := some (orZero w.coinBalance + 500) },
           orZero w.coinBalance + 500) ∧
    walletTopup true "success" amt (some w) = .error .invalidAmount ∧
    walletTopup false ds amt (some w) = .error .verificationFailed := by
  refine ⟨rfl, rfl, rfl, ?_, ?_⟩
  · simp only [walletTopup]
    rw [if_neg h1, if_neg h2, if_neg h3]
    rfl
  · simp only [walletTopup]
    rw [if_pos (Or.inl trivial)]

/-- Claim C9 (witness): the table theorem at a 30 coin wallet and the
off-table verified amount of 1000 minor units. -/
theorem topup_fixed_grant_table_witness :
    walletTopup true "success" 100000 (some { coinBalance := some 30 }) =
      .ok ({ (({ coinBalance := some 30 }) : Wallet) with
              coinBalance := some (orZero (Wallet.coinBalance
                { coinBalance := some 30 }) + 100) },
           orZero (Wallet.coinBalance { coinBalance := some 30 }) + 100) ∧
    walletTopup true "success" 200000 (some { coinBalance := some 30 }) =
      .ok ({ (({ coinBalance := some 30 }) : Wallet) with
              coinBalance := some (orZero (Wallet.coinBalance
                { coinBalance := some 30 }) + 250) },
           orZero (Wallet.coinBalance { coinBalance := some 30 }) + 250) ∧
    walletTopup true "success" 400000 (some { coinBalance := some 30 }) =
      .ok ({ (({ coinBalance := some 30 }) : Wallet) with
              coinBalance := some (orZero (Wallet.coinBalance
                { coinBalance := some 30 }) + 500) },
           orZero (Wallet.coinBalance { coinBalance := some 30 }) + 500) ∧
    walletTopup true "success" 1000 (some { coinBalance := some 30 }) =
      .error .invalidAmount ∧
    walletTopup false "abandoned" 1000 (some { coinBalance := some 30 }) =
      .error .verificationFailed :=
  topup_fixed_grant_table { coinBalance := some 30 } 1000 "abandoned"
    (by decide) (by decide) (by decide)

/-- Claim C10: a POST /convertCurrency request whose from/to pair is
neither points-to-gq nor gq-to-points falls through both branches: no
balance is updated and the handler still answers success true, so an
unsupported direction is silently accepted as a no-op. -/
theorem convertCurrency_unsupported_direction_noop
    (frm transferTo : String) (A : Int) (w : Wallet)
    (h1 : ¬(frm = "points" ∧ transferTo = "gq"))
    (h2 : ¬(frm = "gq" ∧ transferTo = "points")) :
    convertCurrency frm transferTo A (some w) = .ok w := by
  simp only [convertCurrency]
  rw [if_neg h1, if_neg h2]

/-- Claim C10 (witness): the pair from coins to gq matches neither
branch, and the request on a 30 coin wallet returns the wallet
untouched with a success response. -/
theorem convertCurrency_unsupported_direction_noop_witness :
    convertCurrency "coins" "gq" 77 (some { coinBalance := some 30 }) =
      .ok { coinBalance := some 30 } :=
  convertCurrency_unsupported_direction_noop "coins" "gq" 77
    { coinBalance := some 30 } (by decide) (by decide)

end KidsApp
